import Mathlib

/-!
Shallow embedding of the inventory-service backend (src/main.py): grocery
stock-keeping with a movement ledger, plus food recipes with a denormalized
cost rollup. Python floats are modelled as rationals, machine ints as Int,
and the SQLite tables as lists of rows. Each request handler becomes a pure
function from a database state (and parsed request data) to an outcome that
carries the post-state: handled 4xx errors commit nothing, while an
unhandled TypeError carries exactly the state committed before the crash.
-/

set_option autoImplicit false

namespace Inventory

/-- Row of the grocery table (src/main.py lines 19 to 25). -/
structure Grocery where
  id : Int
  name : String
  stock : Int
  threshold : Int
  unit_cost : Rat
deriving DecidableEq

/-- Row of the stock movement ledger (src/main.py lines 37 to 41).
The row id and timestamp play no role in any claim and are omitted. -/
structure StockMovement where
  grocery_id : Int
  change : Int
deriving DecidableEq

/-- Row of the food table (src/main.py lines 51 to 56). -/
structure Food where
  id : Int
  name : String
  selling_price : Rat
  cost_price : Rat
deriving DecidableEq

/-- Row of the food recipe join table (src/main.py lines 82 to 87). -/
structure FoodRecipe where
  food_id : Int
  grocery_id : Int
  quantity : Rat
deriving DecidableEq

/-- The relational store: one list per table, in insertion order, plus the
autoincrement counters for the two primary keys that the handlers read back. -/
structure DB where
  groceries : List Grocery
  movements : List StockMovement
  foods : List Food
  recipes : List FoodRecipe
  nextGroceryId : Int
  nextFoodId : Int
deriving DecidableEq

/-- The error kinds a handler can produce: the three documented 400/404
classes, and the undocumented unhandled TypeError from int(None). -/
inductive Err where
  | validation
  | conflict
  | notFound
  | typeError
deriving DecidableEq

/-- Outcome of one request: success or failure, each carrying the database
state as committed when the handler returned (or crashed). -/
inductive Outcome (α : Type) where
  | ok (post : DB) (val : α)
  | fail (post : DB) (e : Err)
deriving DecidableEq

/-- The committed database state after an outcome, successful or not. -/
def Outcome.state {α : Type} : Outcome α → DB
  | .ok post _ => post
  | .fail post _ => post

/-- Python str.strip: drop leading and trailing whitespace. -/
def strip (s : String) : String :=
  ⟨((s.data.dropWhile Char.isWhitespace).reverse.dropWhile Char.isWhitespace).reverse⟩

/-- Grocery.query.get: first row with the given primary key. -/
def findGrocery (db : DB) (gid : Int) : Option Grocery :=
  db.groceries.find? (fun g => g.id == gid)

/-- Food.query.get: first row with the given primary key. -/
def findFood (db : DB) (fid : Int) : Option Food :=
  db.foods.find? (fun f => f.id == fid)

/-- Writing one attribute of the ORM row fetched by primary key and
committing: the row with that id is replaced, all others kept. -/
def replaceFood (foods : List Food) (fid : Int) (f : Food) : List Food :=
  foods.map (fun x => if x.id == fid then f else x)

/-- Same single-row update for the grocery table. -/
def replaceGrocery (gs : List Grocery) (gid : Int) (g : Grocery) : List Grocery :=
  gs.map (fun x => if x.id == gid then g else x)

/-- One iteration of the loop in compute_food_cost (src/main.py lines 95
to 97): the line contributes quantity times unit cost when the grocery row
exists and its unit cost is truthy, and nothing otherwise. -/
def lineContribution (gs : List Grocery) (r : FoodRecipe) : Rat :=
  match gs.find? (fun g => g.id == r.grocery_id) with
  | some g => if g.unit_cost ≠ 0 then r.quantity * g.unit_cost else 0
  | none => 0

/-- compute_food_cost (src/main.py lines 92 to 102): sum the contributions
of the recipe lines of the food, write the sum into cost_price when the food
row exists, and return the sum. -/
def compute_food_cost (db : DB) (fid : Int) : DB × Rat :=
  let recs := db.recipes.filter (fun r => r.food_id == fid)
  let total := (recs.map (lineContribution db.groceries)).sum
  match findFood db fid with
  | some f =>
      ({ db with foods := replaceFood db.foods fid { f with cost_price := total } }, total)
  | none => (db, total)

/-- The unit cost the specification assigns to a grocery id: the stored
value when the row exists, zero when the reference dangles. -/
def unitCostOf (gs : List Grocery) (gid : Int) : Rat :=
  match gs.find? (fun g => g.id == gid) with
  | some g => g.unit_cost
  | none => 0

/-- The cost formula as the specification words it: the sum over the
current recipe lines of the food of quantity times the referenced unit cost,
a dangling reference counting as zero. -/
def specRecipeSum (gs : List Grocery) (rs : List FoodRecipe) (fid : Int) : Rat :=
  ((rs.filter (fun r => r.food_id == fid)).map
    (fun r => r.quantity * unitCostOf gs r.grocery_id)).sum

theorem lineContribution_eq (gs : List Grocery) (r : FoodRecipe) :
    lineContribution gs r = r.quantity * unitCostOf gs r.grocery_id := by
  unfold lineContribution unitCostOf
  cases h : gs.find? (fun g => g.id == r.grocery_id) with
  | none => simp
  | some g =>
    by_cases hc : g.unit_cost = 0
    · simp [hc]
    · simp [hc]

theorem compute_total_eq (db : DB) (fid : Int) :
    (compute_food_cost db fid).2 = specRecipeSum db.groceries db.recipes fid := by
  have hmap : lineContribution db.groceries
      = fun r => r.quantity * unitCostOf db.groceries r.grocery_id :=
    funext (lineContribution_eq db.groceries)
  unfold compute_food_cost specRecipeSum
  cases h : findFood db fid <;>
    simp [h, hmap]

theorem find?_map_replace {α : Type} (p : α → Bool) (a' : α) (l : List α)
    (hl : (l.find? p).isSome) (ha : p a' = true) :
    (l.map (fun x => if p x then a' else x)).find? p = some a' := by
  induction l with
  | nil => simp at hl
  | cons a t ih =>
    by_cases hp : p a = true
    · simp [List.map_cons, if_pos hp, List.find?_cons_of_pos, ha]
    · rw [List.find?_cons_of_neg _ hp] at hl
      rw [List.map_cons, if_neg hp, List.find?_cons_of_neg _ hp]
      exact ih hl

theorem findFood_replaceFood (foods : List Food) (fid : Int) (f f' : Food)
    (h : foods.find? (fun x => x.id == fid) = some f) (h' : f'.id = fid) :
    (replaceFood foods fid f').find? (fun x => x.id == fid) = some f' := by
  unfold replaceFood
  exact find?_map_replace _ _ _ (by simp [h]) (by simp [h'])

theorem findFood_id (db : DB) (fid : Int) (f : Food)
    (h : findFood db fid = some f) : f.id = fid := by
  have := List.find?_some h
  simpa using this

/-- C1: for every existing food, compute_food_cost returns, and writes into
that food's cost_price, exactly the sum over its current recipe lines of
quantity times the referenced unit cost, a line whose grocery is missing or
has zero unit cost contributing zero, duplicate lines each contributing. -/
theorem C1_compute_food_cost (db : DB) (fid : Int) (f : Food)
    (hf : findFood db fid = some f) :
    (compute_food_cost db fid).2 = specRecipeSum db.groceries db.recipes fid
    ∧ findFood (compute_food_cost db fid).1 fid
        = some { f with cost_price := specRecipeSum db.groceries db.recipes fid }
    ∧ (compute_food_cost db fid).1.recipes = db.recipes
    ∧ (compute_food_cost db fid).1.groceries = db.groceries := by
  have htot := compute_total_eq db fid
  refine ⟨htot, ?_, ?_, ?_⟩
  · unfold compute_food_cost at htot ⊢
    simp only [hf] at htot ⊢
    rw [← htot]
    exact findFood_replaceFood db.foods fid f _ hf (findFood_id db fid f hf)
  · unfold compute_food_cost
    simp [hf]
  · unfold compute_food_cost
    simp [hf]

/-- Database with one food whose recipe has two duplicate flour lines, one
dangling line, and one line on a zero-cost grocery. -/
def dbC1 : DB :=
  ⟨[⟨1, "Flour", 10, 2, 2⟩, ⟨2, "Water", 50, 5, 0⟩], [],
   [⟨1, "Bread", 9, 0⟩],
   [⟨1, 1, 3⟩, ⟨1, 1, 1⟩, ⟨1, 99, 5⟩, ⟨1, 2, 4⟩], 3, 2⟩

theorem C1_witness :
    findFood dbC1 1 = some ⟨1, "Bread", 9, 0⟩
    ∧ ((compute_food_cost dbC1 1).2 = specRecipeSum dbC1.groceries dbC1.recipes 1
      ∧ findFood (compute_food_cost dbC1 1).1 1
          = some { (⟨1, "Bread", 9, 0⟩ : Food) with
                     cost_price := specRecipeSum dbC1.groceries dbC1.recipes 1 }
      ∧ (compute_food_cost dbC1 1).1.recipes = dbC1.recipes
      ∧ (compute_food_cost dbC1 1).1.groceries = dbC1.groceries) :=
  ⟨by decide, C1_compute_food_cost dbC1 1 ⟨1, "Bread", 9, 0⟩ (by decide)⟩

/-- create_grocery (src/main.py lines 104 to 118): trim the name, reject an
empty name, reject a duplicate name, otherwise insert a new row carrying the
supplied stock, threshold and unit cost. The supplied stock is stored as
given, without clamping. -/
def create_grocery (db : DB) (name : String) (stock threshold : Int)
    (unit_cost : Rat) : Outcome Grocery :=
  let n := strip name
  if n = "" then .fail db .validation
  else if (db.groceries.find? (fun g => g.name == n)).isSome then .fail db .conflict
  else
    let g : Grocery := ⟨db.nextGroceryId, n, stock, threshold, unit_cost⟩
    .ok { db with groceries := db.groceries ++ [g],
                  nextGroceryId := db.nextGroceryId + 1 } g

/-- The optional fields of a PUT /grocery request body; a missing key is
none. -/
structure GroceryUpdate where
  name : Option String
  threshold : Option Int
  stock : Option Int
  unit_cost : Option Rat

/-- The three non-name field writes of update_grocery (src/main.py lines
144 to 149), in source order: threshold stored as given, stock clamped with
max 0, unit cost stored as given. -/
def applyGroceryFields (g : Grocery) (u : GroceryUpdate) : Grocery :=
  let g2 := match u.threshold with
    | none => g
    | some t => { g with threshold := t }
  let g3 := match u.stock with
    | none => g2
    | some s => { g2 with stock := max 0 s }
  match u.unit_cost with
  | none => g3
  | some c => { g3 with unit_cost := c }

/-- update_grocery (src/main.py lines 132 to 151): 404 on a missing row; a
supplied name is trimmed and, when it differs from the current one, rejected
if any row already bears it; then the remaining supplied fields are applied
and the row is committed. -/
def update_grocery (db : DB) (gid : Int) (u : GroceryUpdate) : Outcome Grocery :=
  match findGrocery db gid with
  | none => .fail db .notFound
  | some g =>
    let renamed : Except Err Grocery :=
      match u.name with
      | none => .ok g
      | some nm =>
        let n' := strip nm
        if n' = g.name then .ok g
        else if (db.groceries.find? (fun x => x.name == n')).isSome then .error .conflict
        else .ok { g with name := n' }
    match renamed with
    | .error e => .fail db e
    | .ok g1 =>
      let g' := applyGroceryFields g1 u
      .ok { db with groceries := replaceGrocery db.groceries gid g' } g'

/-- delete_grocery (src/main.py lines 153 to 160): 404 on a missing row,
otherwise delete exactly that row; no other table is touched. -/
def delete_grocery (db : DB) (gid : Int) : Outcome Unit :=
  match findGrocery db gid with
  | none => .fail db .notFound
  | some _ => .ok { db with groceries := db.groceries.eraseP (fun g => g.id == gid) } ()

/-- add_stock (src/main.py lines 162 to 173): 404 on a missing row, 400 on
qty ≤ 0, otherwise stock += qty and one ledger row with change = qty is
appended. -/
def add_stock (db : DB) (gid qty : Int) : Outcome Grocery :=
  match findGrocery db gid with
  | none => .fail db .notFound
  | some g =>
    if qty ≤ 0 then .fail db .validation
    else
      let g' := { g with stock := g.stock + qty }
      .ok { db with groceries := replaceGrocery db.groceries gid g',
                    movements := db.movements ++ [⟨gid, qty⟩] } g'

/-- subtract_stock (src/main.py lines 175 to 186): 404 on a missing row,
400 on qty ≤ 0, otherwise stock = max 0 (stock − qty) while the appended
ledger row records change = −qty, the requested amount. -/
def subtract_stock (db : DB) (gid qty : Int) : Outcome Grocery :=
  match findGrocery db gid with
  | none => .fail db .notFound
  | some g =>
    if qty ≤ 0 then .fail db .validation
    else
      let g' := { g with stock := max 0 (g.stock - qty) }
      .ok { db with groceries := replaceGrocery db.groceries gid g',
                    movements := db.movements ++ [⟨gid, -qty⟩] } g'

/-- low_stock_alerts (src/main.py lines 188 to 191): the groceries whose
stock is strictly below their threshold. -/
def low_stock_alerts (db : DB) : List Grocery :=
  db.groceries.filter (fun g => g.stock < g.threshold)

/-- The scalar part of Food.to_dict (src/main.py lines 58 to 67). -/
structure FoodView where
  id : Int
  name : String
  selling_price : Rat
  cost_price : Rat
  profit : Rat
  margin_percent : Rat
deriving DecidableEq

/-- Food.to_dict (src/main.py lines 58 to 67): the stored columns plus the
derived profit and margin; the margin falls back to 0 when selling_price is
falsy, which for a number means equal to zero. -/
def Food.to_dict (f : Food) : FoodView :=
  ⟨f.id, f.name, f.selling_price, f.cost_price,
   f.selling_price - f.cost_price,
   if f.selling_price ≠ 0
     then (f.selling_price - f.cost_price) / f.selling_price * 100
     else 0⟩

/-- get_food (src/main.py lines 234 to 239): 404 on a missing row,
otherwise the dict view of the stored row. -/
def get_food (db : DB) (fid : Int) : Outcome FoodView :=
  match findFood db fid with
  | none => .fail db .notFound
  | some f => .ok db (Food.to_dict f)

theorem findGrocery_id (db : DB) (gid : Int) (g : Grocery)
    (h : findGrocery db gid = some g) : g.id = gid := by
  have := List.find?_some h
  simpa using this

theorem findGrocery_replaceGrocery (db : DB) (gid : Int) (g g' : Grocery)
    (h : findGrocery db gid = some g) (h' : g'.id = gid) :
    (replaceGrocery db.groceries gid g').find? (fun x => x.id == gid) = some g' := by
  unfold replaceGrocery
  have hs : (db.groceries.find? (fun x => x.id == gid)).isSome := by
    unfold findGrocery at h
    simp [h]
  exact find?_map_replace _ _ _ hs (by simp [h'])

theorem add_stock_ok (db : DB) (gid qty : Int) (g : Grocery)
    (hg : findGrocery db gid = some g) (hq : 0 < qty) :
    add_stock db gid qty
      = .ok { db with
                groceries := replaceGrocery db.groceries gid { g with stock := g.stock + qty },
                movements := db.movements ++ [⟨gid, qty⟩] }
            { g with stock := g.stock + qty } := by
  unfold add_stock
  rw [hg]
  simp [if_neg (not_le.mpr hq)]

theorem subtract_stock_ok (db : DB) (gid qty : Int) (g : Grocery)
    (hg : findGrocery db gid = some g) (hq : 0 < qty) :
    subtract_stock db gid qty
      = .ok { db with
                groceries := replaceGrocery db.groceries gid
                  { g with stock := max 0 (g.stock - qty) },
                movements := db.movements ++ [⟨gid, -qty⟩] }
            { g with stock := max 0 (g.stock - qty) } := by
  unfold subtract_stock
  rw [hg]
  simp [if_neg (not_le.mpr hq)]

/-- C2: subtracting more than the available stock clamps the stock at zero
while the appended ledger row records the full requested amount. Stated
under the data-model invariant that the current stock is non-negative. -/
theorem C2_subtract_clamps (db : DB) (gid qty : Int) (g : Grocery)
    (hg : findGrocery db gid = some g) (h0 : 0 ≤ g.stock) (hq : g.stock < qty) :
    ∃ db', subtract_stock db gid qty = .ok db' { g with stock := 0 }
      ∧ findGrocery db' gid = some { g with stock := 0 }
      ∧ db'.movements = db.movements ++ [⟨gid, -qty⟩] := by
  have hqpos : 0 < qty := lt_of_le_of_lt h0 hq
  have hclamp : max 0 (g.stock - qty) = 0 := max_eq_left (by omega)
  have h := subtract_stock_ok db gid qty g hg hqpos
  rw [hclamp] at h
  refine ⟨_, h, ?_, rfl⟩
  exact findGrocery_replaceGrocery db gid g _ hg (findGrocery_id db gid g hg)

/-- Concrete grocery store used to instantiate the stock claims. -/
def dbC2 : DB := ⟨[⟨1, "Milk", 2, 0, 1⟩], [], [], [], 2, 1⟩

theorem C2_witness :
    findGrocery dbC2 1 = some ⟨1, "Milk", 2, 0, 1⟩
    ∧ (0 : Int) ≤ 2 ∧ (2 : Int) < 7
    ∧ ∃ db', subtract_stock dbC2 1 7 = .ok db' { (⟨1, "Milk", 2, 0, 1⟩ : Grocery) with stock := 0 }
        ∧ findGrocery db' 1 = some { (⟨1, "Milk", 2, 0, 1⟩ : Grocery) with stock := 0 }
        ∧ db'.movements = dbC2.movements ++ [⟨1, -7⟩] :=
  ⟨by decide, by decide, by decide,
   C2_subtract_clamps dbC2 1 7 ⟨1, "Milk", 2, 0, 1⟩ (by decide) (by decide) (by decide)⟩

theorem applyGroceryFields_stock (g : Grocery) (u : GroceryUpdate) (s : Int)
    (h : u.stock = some s) : (applyGroceryFields g u).stock = max 0 s := by
  rcases u with ⟨n, t, st, c⟩
  simp only at h
  subst h
  unfold applyGroceryFields
  cases t <;> cases c <;> rfl

theorem add_stock_nonpos (db : DB) (gid qty : Int) (g : Grocery)
    (hg : findGrocery db gid = some g) (hq : qty ≤ 0) :
    add_stock db gid qty = .fail db .validation := by
  unfold add_stock
  rw [hg]
  simp [hq]

theorem subtract_stock_nonpos (db : DB) (gid qty : Int) (g : Grocery)
    (hg : findGrocery db gid = some g) (hq : qty ≤ 0) :
    subtract_stock db gid qty = .fail db .validation := by
  unfold subtract_stock
  rw [hg]
  simp [hq]

/-- C3 counterexample: create_grocery does not clamp the supplied stock, so
creating a grocery with stock −5 stores −5, a negative stock, refuting the
claim that every stock-writing operation leaves stock ≥ 0. -/
theorem C3_counterexample :
    create_grocery ⟨[], [], [], [], 1, 1⟩ "Milk" (-5) 0 0
      = Outcome.ok ⟨[⟨1, "Milk", -5, 0, 0⟩], [], [], [], 2, 1⟩ ⟨1, "Milk", -5, 0, 0⟩
    ∧ ¬ (0 ≤ (Grocery.mk 1 "Milk" (-5) 0 0).stock) := by
  decide

/-- C3 as amended: UpdateGrocery with a supplied stock value and
SubtractStock always leave the written stock non-negative, and AddStock
preserves non-negativity, but CreateGrocery stores the supplied stock
without clamping, so a negative supplied stock is stored as given. -/
theorem C3_stock_clamping :
    (∀ db gid u db' g' s, update_grocery db gid u = .ok db' g' →
        u.stock = some s → 0 ≤ g'.stock)
    ∧ (∀ db gid qty db' g', subtract_stock db gid qty = .ok db' g' → 0 ≤ g'.stock)
    ∧ (∀ db gid qty db' g' g, findGrocery db gid = some g → 0 ≤ g.stock →
        add_stock db gid qty = .ok db' g' → 0 ≤ g'.stock)
    ∧ (∀ db nm s t c db' g', create_grocery db nm s t c = .ok db' g' → g'.stock = s) := by
  refine ⟨?_, ?_, ?_, ?_⟩
  · intro db gid u db' g' s h hs
    unfold update_grocery at h
    cases hfind : findGrocery db gid with
    | none => rw [hfind] at h; exact Outcome.noConfusion h
    | some g =>
      rw [hfind] at h
      dsimp only at h
      split at h
      · exact Outcome.noConfusion h
      · injection h with h1 h2
        rw [← h2, applyGroceryFields_stock _ _ _ hs]
        exact le_max_left 0 s
  · intro db gid qty db' g' h
    cases hfind : findGrocery db gid with
    | none => unfold subtract_stock at h; rw [hfind] at h; exact Outcome.noConfusion h
    | some g =>
      by_cases hq : qty ≤ 0
      · rw [subtract_stock_nonpos db gid qty g hfind hq] at h
        exact Outcome.noConfusion h
      · rw [subtract_stock_ok db gid qty g hfind (by omega)] at h
        injection h with h1 h2
        rw [← h2]
        exact le_max_left 0 _
  · intro db gid qty db' g' g hfind h0 h
    by_cases hq : qty ≤ 0
    · rw [add_stock_nonpos db gid qty g hfind hq] at h
      exact Outcome.noConfusion h
    · rw [add_stock_ok db gid qty g hfind (by omega)] at h
      injection h with h1 h2
      rw [← h2]
      show 0 ≤ g.stock + qty
      omega
  · intro db nm s t c db' g' h
    simp only [create_grocery] at h
    split at h
    · exact Outcome.noConfusion h
    · split at h
      · exact Outcome.noConfusion h
      · injection h with h1 h2
        rw [← h2]

/-- Concrete store used to instantiate the amended C3 statement. -/
def dbC3 : DB := ⟨[⟨1, "Egg", 2, 0, 1⟩], [], [], [], 2, 1⟩

/-- The post-state of subtracting 5 from the stock of 2 in dbC3. -/
def dbC3post : DB := ⟨[⟨1, "Egg", 0, 0, 1⟩], [⟨1, -5⟩], [], [], 2, 1⟩

theorem C3_witness : (0 : Int) ≤ (Grocery.mk 1 "Egg" 0 0 1).stock :=
  C3_stock_clamping.2.1 dbC3 1 5 dbC3post ⟨1, "Egg", 0, 0, 1⟩ (by decide)

/-- C4: update_grocery, whatever fields it changes and whether it succeeds
or fails, never touches the food or recipe tables, so every dependent food
keeps its stored cost_price; no recomputation is triggered by this
operation. -/
theorem C4_update_grocery_frame (db : DB) (gid : Int) (u : GroceryUpdate) :
    (update_grocery db gid u).state.foods = db.foods
    ∧ (update_grocery db gid u).state.recipes = db.recipes := by
  cases hfind : findGrocery db gid with
  | none => simp [update_grocery, hfind, Outcome.state]
  | some g =>
    simp only [update_grocery, hfind]
    split
    · exact ⟨rfl, rfl⟩
    · exact ⟨rfl, rfl⟩

/-- C6: the low-stock alert list holds exactly the groceries whose stock is
strictly below their threshold; stock equal to the threshold is excluded. -/
theorem C6_low_stock_alerts (db : DB) (g : Grocery) :
    g ∈ low_stock_alerts db ↔ g ∈ db.groceries ∧ g.stock < g.threshold := by
  simp [low_stock_alerts, List.mem_filter]

/-- C7: for an existing grocery, add_stock and subtract_stock fail with a
ValidationError exactly when qty ≤ 0; on success add_stock sets stock to
stock + qty and appends exactly one ledger row with change = qty, and
subtract_stock appends exactly one ledger row with change = −qty. -/
theorem C7_stock_errors (db : DB) (gid qty : Int) (g : Grocery)
    (hg : findGrocery db gid = some g) :
    (add_stock db gid qty = .fail db .validation ↔ qty ≤ 0)
    ∧ (subtract_stock db gid qty = .fail db .validation ↔ qty ≤ 0)
    ∧ (0 < qty → ∃ db', add_stock db gid qty = .ok db' { g with stock := g.stock + qty }
        ∧ findGrocery db' gid = some { g with stock := g.stock + qty }
        ∧ db'.movements = db.movements ++ [⟨gid, qty⟩])
    ∧ (0 < qty → ∃ db', subtract_stock db gid qty
          = .ok db' { g with stock := max 0 (g.stock - qty) }
        ∧ findGrocery db' gid = some { g with stock := max 0 (g.stock - qty) }
        ∧ db'.movements = db.movements ++ [⟨gid, -qty⟩]) := by
  refine ⟨⟨?_, add_stock_nonpos db gid qty g hg⟩,
          ⟨?_, subtract_stock_nonpos db gid qty g hg⟩, ?_, ?_⟩
  · intro h
    by_contra hq
    rw [add_stock_ok db gid qty g hg (by omega)] at h
    exact Outcome.noConfusion h
  · intro h
    by_contra hq
    rw [subtract_stock_ok db gid qty g hg (by omega)] at h
    exact Outcome.noConfusion h
  · intro hq
    refine ⟨_, add_stock_ok db gid qty g hg hq, ?_, rfl⟩
    exact findGrocery_replaceGrocery db gid g _ hg (findGrocery_id db gid g hg)
  · intro hq
    refine ⟨_, subtract_stock_ok db gid qty g hg hq, ?_, rfl⟩
    exact findGrocery_replaceGrocery db gid g _ hg (findGrocery_id db gid g hg)

/-- Concrete store used to instantiate C7. -/
def dbC7 : DB := ⟨[⟨1, "Rice", 4, 2, 3⟩], [], [], [], 2, 1⟩

theorem C7_witness :
    findGrocery dbC7 1 = some ⟨1, "Rice", 4, 2, 3⟩
    ∧ ((add_stock dbC7 1 5 = .fail dbC7 .validation ↔ (5 : Int) ≤ 0)
      ∧ (subtract_stock dbC7 1 5 = .fail dbC7 .validation ↔ (5 : Int) ≤ 0)
      ∧ ((0 : Int) < 5 → ∃ db', add_stock dbC7 1 5
            = .ok db' { (⟨1, "Rice", 4, 2, 3⟩ : Grocery) with stock := 4 + 5 }
          ∧ findGrocery db' 1 = some { (⟨1, "Rice", 4, 2, 3⟩ : Grocery) with stock := 4 + 5 }
          ∧ db'.movements = dbC7.movements ++ [⟨1, 5⟩])
      ∧ ((0 : Int) < 5 → ∃ db', subtract_stock dbC7 1 5
            = .ok db' { (⟨1, "Rice", 4, 2, 3⟩ : Grocery) with stock := max 0 (4 - 5) }
          ∧ findGrocery db' 1 = some { (⟨1, "Rice", 4, 2, 3⟩ : Grocery) with stock := max 0 (4 - 5) }
          ∧ db'.movements = dbC7.movements ++ [⟨1, -5⟩])) :=
  ⟨by decide, C7_stock_errors dbC7 1 5 ⟨1, "Rice", 4, 2, 3⟩ (by decide)⟩

/-- C8: delete_grocery removes only the grocery row: the movement, recipe
and food tables are untouched, and get_food on any existing food still
returns it with its stored cost_price unchanged. -/
theorem C8_delete_grocery_frame (db : DB) (gid : Int) (g : Grocery)
    (hg : findGrocery db gid = some g) :
    ∃ db', delete_grocery db gid = .ok db' ()
      ∧ db'.movements = db.movements
      ∧ db'.recipes = db.recipes
      ∧ db'.foods = db.foods
      ∧ ∀ fid f, findFood db fid = some f →
          get_food db' fid = .ok db' (Food.to_dict f)
          ∧ (Food.to_dict f).cost_price = f.cost_price := by
  refine ⟨{ db with groceries := db.groceries.eraseP (fun x => x.id == gid) },
          ?_, rfl, rfl, rfl, ?_⟩
  · unfold delete_grocery
    rw [hg]
  · intro fid f hf
    have hf' : findFood { db with groceries := db.groceries.eraseP (fun x => x.id == gid) } fid
        = some f := hf
    constructor
    · unfold get_food
      rw [hf']
    · rfl

/-- Concrete store with a food whose recipe references the grocery that C8
deletes, plus a ledger row for that grocery. -/
def dbC8 : DB :=
  ⟨[⟨1, "Salt", 9, 1, 4⟩], [⟨1, 9⟩], [⟨1, "Soup", 10, 8⟩], [⟨1, 1, 2⟩], 2, 2⟩

theorem C8_witness :
    findGrocery dbC8 1 = some ⟨1, "Salt", 9, 1, 4⟩
    ∧ ∃ db', delete_grocery dbC8 1 = .ok db' ()
      ∧ db'.movements = dbC8.movements
      ∧ db'.recipes = dbC8.recipes
      ∧ db'.foods = dbC8.foods
      ∧ ∀ fid f, findFood dbC8 fid = some f →
          get_food db' fid = .ok db' (Food.to_dict f)
          ∧ (Food.to_dict f).cost_price = f.cost_price :=
  ⟨by decide, C8_delete_grocery_frame dbC8 1 ⟨1, "Salt", 9, 1, 4⟩ (by decide)⟩

/-- C9: the dict view of a food satisfies profit = selling_price −
cost_price, margin_percent = profit / selling_price × 100 whenever
selling_price is nonzero, and margin_percent = 0 when selling_price is 0,
so the division is never taken with a zero divisor. -/
theorem C9_derived_fields (f : Food) :
    (Food.to_dict f).profit = f.selling_price - f.cost_price
    ∧ (f.selling_price ≠ 0 →
        (Food.to_dict f).margin_percent
          = (Food.to_dict f).profit / f.selling_price * 100)
    ∧ (f.selling_price = 0 → (Food.to_dict f).margin_percent = 0) := by
  refine ⟨rfl, ?_, ?_⟩ <;> intro h <;> simp [Food.to_dict, h]

theorem C9_witness :
    (Food.to_dict ⟨1, "Cake", 10, 4⟩).profit = 10 - 4
    ∧ (Food.to_dict ⟨1, "Cake", 10, 4⟩).margin_percent
        = (Food.to_dict ⟨1, "Cake", 10, 4⟩).profit / 10 * 100 :=
  ⟨(C9_derived_fields ⟨1, "Cake", 10, 4⟩).1,
   (C9_derived_fields ⟨1, "Cake", 10, 4⟩).2.1 (by norm_num)⟩

/-- One object of a "groceries" list in a food request body: the two
optional integer keys and the quantity (default 0.0 when absent). -/
structure RecipeItem where
  grocery_id : Option Int
  id : Option Int
  quantity : Rat
deriving DecidableEq

/-- The expression int(item.get("grocery_id") or item.get("id")) from
src/main.py lines 219 and 260: Python or yields its first operand when that
operand is truthy (present and nonzero) and its second operand otherwise;
int of None raises TypeError, modelled as none. -/
def lineKey (item : RecipeItem) : Option Int :=
  match item.grocery_id with
  | some v => if v ≠ 0 then some v else item.id
  | none => item.id

/-- The recipe-line insertion loop of create_food and update_food
(src/main.py lines 218 to 224 and 259 to 265): each item first has its key
computed (none aborts the whole request with a TypeError, discarding the
uncommitted rows added so far), then is skipped when its quantity is ≤ 0 or
its grocery does not exist, and otherwise becomes a pending recipe row. -/
def insertLines (gs : List Grocery) (fid : Int) : List RecipeItem → Option (List FoodRecipe)
  | [] => some []
  | item :: rest =>
    match lineKey item with
    | none => none
    | some gid =>
      if item.quantity ≤ 0 then insertLines gs fid rest
      else if (gs.find? (fun g => g.id == gid)).isSome then
        match insertLines gs fid rest with
        | none => none
        | some ls => some (⟨fid, gid, item.quantity⟩ :: ls)
      else insertLines gs fid rest

/-- The recipe row one item produces, when it produces one: requires a
computable key, a positive quantity and an existing grocery. -/
def validLine (gs : List Grocery) (fid : Int) (i : RecipeItem) : Option FoodRecipe :=
  match lineKey i with
  | none => none
  | some gid =>
    if i.quantity ≤ 0 then none
    else if (gs.find? (fun g => g.id == gid)).isSome then some ⟨fid, gid, i.quantity⟩
    else none

/-- create_food (src/main.py lines 205 to 227): validate and commit the
food row with cost_price 0, then run the insertion loop (a TypeError there
leaves the food row committed and no recipe rows), then commit the pending
rows and recompute the cost. -/
def create_food (db : DB) (name : String) (selling_price : Rat)
    (items : List RecipeItem) : Outcome Food :=
  let n := strip name
  if n = "" then .fail db .validation
  else if (db.foods.find? (fun f => f.name == n)).isSome then .fail db .conflict
  else
    let fid := db.nextFoodId
    let food : Food := ⟨fid, n, selling_price, 0⟩
    let db1 := { db with foods := db.foods ++ [food], nextFoodId := fid + 1 }
    match insertLines db1.groceries fid items with
    | none => .fail db1 .typeError
    | some ls =>
      let db2 := { db1 with recipes := db1.recipes ++ ls }
      let out := compute_food_cost db2 fid
      .ok out.1 ((findFood out.1 fid).getD food)

/-- The optional fields of a PUT /food request body. -/
structure FoodUpdate where
  name : Option String
  selling_price : Option Rat
  groceries : Option (List RecipeItem)

/-- update_food (src/main.py lines 241 to 270): 404 on a missing row; a
supplied name follows the same collision rule as groceries; name and
selling_price are committed; when a groceries list is supplied every
existing recipe row of this food is deleted and committed, then the
insertion loop runs (a TypeError leaves the deletion committed and inserts
nothing), then the cost is recomputed; without a groceries list the cost is
recomputed over the unchanged rows. -/
def update_food (db : DB) (fid : Int) (u : FoodUpdate) : Outcome Food :=
  match findFood db fid with
  | none => .fail db .notFound
  | some f =>
    let renamed : Except Err Food :=
      match u.name with
      | none => .ok f
      | some nm =>
        let n' := strip nm
        if n' = f.name then .ok f
        else if (db.foods.find? (fun x => x.name == n')).isSome then .error .conflict
        else .ok { f with name := n' }
    match renamed with
    | .error e => .fail db e
    | .ok f1 =>
      let f2 := match u.selling_price with
        | none => f1
        | some sp => { f1 with selling_price := sp }
      let db1 := { db with foods := replaceFood db.foods fid f2 }
      match u.groceries with
      | none =>
        let out := compute_food_cost db1 fid
        .ok out.1 ((findFood out.1 fid).getD f2)
      | some items =>
        let db2 := { db1 with recipes := db1.recipes.filter (fun r => r.food_id != fid) }
        match insertLines db2.groceries fid items with
        | none => .fail db2 .typeError
        | some ls =>
          let db3 := { db2 with recipes := db2.recipes ++ ls }
          let out := compute_food_cost db3 fid
          .ok out.1 ((findFood out.1 fid).getD f2)

theorem compute_food_cost_eq (db : DB) (fid : Int) (f : Food)
    (hf : findFood db fid = some f) :
    compute_food_cost db fid
      = ({ db with
           foods := replaceFood db.foods fid
                      { f with cost_price := specRecipeSum db.groceries db.recipes fid } },
         specRecipeSum db.groceries db.recipes fid) := by
  have hmap : lineContribution db.groceries
      = fun r => r.quantity * unitCostOf db.groceries r.grocery_id :=
    funext (lineContribution_eq db.groceries)
  unfold compute_food_cost
  rw [hf]
  simp only [hmap]
  rfl

theorem insertLines_eq (gs : List Grocery) (fid : Int) :
    ∀ items : List RecipeItem, (∀ i ∈ items, (lineKey i).isSome) →
      insertLines gs fid items = some (items.filterMap (validLine gs fid)) := by
  intro items
  induction items with
  | nil => intro _; rfl
  | cons item rest ih =>
    intro h
    have hk : (lineKey item).isSome := h item (List.mem_cons_self _ _)
    have hrest := ih (fun i hi => h i (List.mem_cons_of_mem _ hi))
    cases hkey : lineKey item with
    | none => rw [hkey] at hk; simp at hk
    | some gid =>
      by_cases hq : item.quantity ≤ 0
      · simp [insertLines, hkey, hq, hrest, List.filterMap_cons, validLine]
      · by_cases hgr : (gs.find? (fun g => g.id == gid)).isSome
        · simp [insertLines, hkey, hq, hrest, List.filterMap_cons, validLine, hgr]
        · simp [insertLines, hkey, hq, hrest, List.filterMap_cons, validLine, hgr]

theorem insertLines_none (gs : List Grocery) (fid : Int) :
    ∀ items : List RecipeItem, (∃ i ∈ items, lineKey i = none) →
      insertLines gs fid items = none := by
  intro items
  induction items with
  | nil => rintro ⟨i, hi, _⟩; simp at hi
  | cons item rest ih =>
    rintro ⟨i, hi, hk⟩
    rcases List.mem_cons.mp hi with rfl | hmem
    · simp [insertLines, hk]
    · have hrest := ih ⟨i, hmem, hk⟩
      cases hkey : lineKey item with
      | none => simp [insertLines, hkey]
      | some gid =>
        by_cases hq : item.quantity ≤ 0
        · simp [insertLines, hkey, hq, hrest]
        · by_cases hgr : (gs.find? (fun g => g.id == gid)).isSome
          · simp [insertLines, hkey, hq, hrest, hgr]
          · simp [insertLines, hkey, hq, hrest, hgr]

theorem validLine_food_id (gs : List Grocery) (fid : Int) (i : RecipeItem)
    (r : FoodRecipe) (h : validLine gs fid i = some r) : r.food_id = fid := by
  cases hkey : lineKey i with
  | none => simp [validLine, hkey] at h
  | some gid =>
    simp only [validLine, hkey] at h
    by_cases hq : i.quantity ≤ 0
    · rw [if_pos hq] at h; exact Option.noConfusion h
    · rw [if_neg hq] at h
      by_cases hgr : (gs.find? (fun g => g.id == gid)).isSome
      · rw [if_pos hgr] at h
        injection h with h'
        rw [← h']
      · rw [if_neg hgr] at h; exact Option.noConfusion h

theorem filter_eq_of_all (rs : List FoodRecipe) (fid : Int)
    (h : ∀ r ∈ rs, r.food_id = fid) :
    rs.filter (fun r => r.food_id == fid) = rs :=
  List.filter_eq_self.mpr (fun r hr => by simp [h r hr])

theorem filter_ne_filter_eq (rs : List FoodRecipe) (fid : Int) :
    (rs.filter (fun r => r.food_id != fid)).filter (fun r => r.food_id == fid) = [] := by
  induction rs with
  | nil => rfl
  | cons a t ih =>
    by_cases h : a.food_id = fid
    · simp [List.filter_cons, h, ih]
    · simp [List.filter_cons, h, ih]

/-- C5: update_food with a supplied groceries list (whose entries all have
a computable key) first deletes every existing recipe row of the food, then
inserts exactly the supplied lines that have positive quantity and an
existing grocery, then recomputes cost_price as their cost sum; update_food
without a groceries list keeps the recipe rows and still recomputes
cost_price from them. With the empty list this leaves no recipe rows and a
cost of the empty sum. -/
theorem C5_update_food (db : DB) (fid : Int) (f : Food)
    (hf : findFood db fid = some f) :
    (∀ items : List RecipeItem, (∀ i ∈ items, (lineKey i).isSome) →
      ∃ db' fv, update_food db fid ⟨none, none, some items⟩ = .ok db' fv
        ∧ db'.recipes = db.recipes.filter (fun r => r.food_id != fid)
            ++ items.filterMap (validLine db.groceries fid)
        ∧ findFood db' fid = some { f with
            cost_price := ((items.filterMap (validLine db.groceries fid)).map
              (fun r => r.quantity * unitCostOf db.groceries r.grocery_id)).sum })
    ∧ (∃ db' fv, update_food db fid ⟨none, none, none⟩ = .ok db' fv
        ∧ db'.recipes = db.recipes
        ∧ findFood db' fid = some { f with
            cost_price := specRecipeSum db.groceries db.recipes fid }) := by
  have hid : f.id = fid := findFood_id db fid f hf
  have hf1 : (replaceFood db.foods fid f).find? (fun x => x.id == fid) = some f :=
    findFood_replaceFood db.foods fid f f hf hid
  constructor
  · intro items hkeys
    have hins : insertLines db.groceries fid items
        = some (items.filterMap (validLine db.groceries fid)) :=
      insertLines_eq db.groceries fid items hkeys
    have hall : ∀ r ∈ items.filterMap (validLine db.groceries fid), r.food_id = fid := by
      intro r hr
      obtain ⟨i, hi, hv⟩ := List.mem_filterMap.mp hr
      exact validLine_food_id db.groceries fid i r hv
    have hS : specRecipeSum db.groceries
        (db.recipes.filter (fun r => r.food_id != fid)
          ++ items.filterMap (validLine db.groceries fid)) fid
        = ((items.filterMap (validLine db.groceries fid)).map
            (fun r => r.quantity * unitCostOf db.groceries r.grocery_id)).sum := by
      unfold specRecipeSum
      rw [List.filter_append, filter_ne_filter_eq, List.nil_append,
          filter_eq_of_all _ fid hall]
    have hf3 : findFood
        { db with foods := replaceFood db.foods fid f,
                  recipes := db.recipes.filter (fun r => r.food_id != fid)
                    ++ items.filterMap (validLine db.groceries fid) } fid = some f := hf1
    have hc := compute_food_cost_eq
        { db with foods := replaceFood db.foods fid f,
                  recipes := db.recipes.filter (fun r => r.food_id != fid)
                    ++ items.filterMap (validLine db.groceries fid) } fid f hf3
    have hstep : update_food db fid ⟨none, none, some items⟩
        = .ok (compute_food_cost
                { db with foods := replaceFood db.foods fid f,
                          recipes := db.recipes.filter (fun r => r.food_id != fid)
                            ++ items.filterMap (validLine db.groceries fid) } fid).1
              ((findFood (compute_food_cost
                { db with foods := replaceFood db.foods fid f,
                          recipes := db.recipes.filter (fun r => r.food_id != fid)
                            ++ items.filterMap (validLine db.groceries fid) } fid).1 fid).getD f) := by
      simp only [update_food, hf, hins]
    rw [hc] at hstep
    dsimp only at hstep
    refine ⟨_, _, hstep, rfl, ?_⟩
    have hfinal := findFood_replaceFood (replaceFood db.foods fid f) fid f
        { f with cost_price := (specRecipeSum db.groceries
            (db.recipes.filter (fun r => r.food_id != fid)
              ++ items.filterMap (validLine db.groceries fid)) fid) } hf1 hid
    rw [← hS]
    exact hfinal
  · have hf3 : findFood { db with foods := replaceFood db.foods fid f } fid = some f := hf1
    have hc := compute_food_cost_eq { db with foods := replaceFood db.foods fid f } fid f hf3
    have hstep : update_food db fid ⟨none, none, none⟩
        = .ok (compute_food_cost { db with foods := replaceFood db.foods fid f } fid).1
              ((findFood (compute_food_cost
                  { db with foods := replaceFood db.foods fid f } fid).1 fid).getD f) := by
      simp only [update_food, hf]
    rw [hc] at hstep
    dsimp only at hstep
    refine ⟨_, _, hstep, rfl, ?_⟩
    exact findFood_replaceFood (replaceFood db.foods fid f) fid f
        { f with cost_price := specRecipeSum db.groceries db.recipes fid } hf1 hid

/-- Concrete store used to instantiate C5: one food with one recipe line. -/
def dbC5 : DB :=
  ⟨[⟨1, "Flour", 5, 0, 2⟩], [], [⟨1, "Bread", 9, 6⟩], [⟨1, 1, 3⟩], 2, 2⟩

theorem C5_witness :
    findFood dbC5 1 = some ⟨1, "Bread", 9, 6⟩
    ∧ ∃ db' fv, update_food dbC5 1 ⟨none, none, some []⟩ = .ok db' fv
        ∧ db'.recipes = dbC5.recipes.filter (fun r => r.food_id != 1)
            ++ ([] : List RecipeItem).filterMap (validLine dbC5.groceries 1)
        ∧ findFood db' 1 = some { (⟨1, "Bread", 9, 6⟩ : Food) with
            cost_price := ((([] : List RecipeItem).filterMap (validLine dbC5.groceries 1)).map
              (fun r => r.quantity * unitCostOf dbC5.groceries r.grocery_id)).sum } :=
  ⟨by decide,
   (C5_update_food dbC5 1 ⟨1, "Bread", 9, 6⟩ (by decide)).1 [] (by simp)⟩

/-- Empty store used for the C10 statements. -/
def dbC10 : DB := ⟨[], [], [], [], 1, 1⟩

/-- C10 counterexample: a line whose grocery_id key is absent and whose id
key carries the falsy value 0 does not raise: int(None or 0) is int(0), so
the request succeeds and the line is silently skipped (no grocery has id 0),
refuting the claim that every line with both keys absent or falsy escapes
the 400-class contract through a TypeError. -/
theorem C10_counterexample :
    (RecipeItem.mk none (some 0) 1).grocery_id = none
    ∧ (RecipeItem.mk none (some 0) 1).id = some 0
    ∧ create_food dbC10 "Pie" 5 [⟨none, some 0, 1⟩]
        = Outcome.ok ⟨[], [], [⟨1, "Pie", 5, 0⟩], [], 1, 2⟩ ⟨1, "Pie", 5, 0⟩ := by
  decide

/-- C10 as amended: a supplied line whose grocery_id key is absent or falsy
and whose id key is absent makes int(None) raise an unhandled TypeError, so
the request fails outside the ValidationError/ConflictError/NotFoundError
contract; in create_food this happens after the food row was committed, and
in update_food after the deletion of the existing recipe rows was
committed. When the id key is instead present with the falsy value 0, the
conversion succeeds and the line is silently skipped. -/
theorem C10_type_error :
    (∀ db nm sp items, strip nm ≠ "" →
        (db.foods.find? (fun x => x.name == strip nm)).isSome = false →
        (∃ i ∈ items, lineKey i = none) →
        create_food db nm sp items
          = .fail { db with foods := db.foods ++ [⟨db.nextFoodId, strip nm, sp, 0⟩],
                            nextFoodId := db.nextFoodId + 1 } Err.typeError)
    ∧ (∀ db fid f items, findFood db fid = some f →
        (∃ i ∈ items, lineKey i = none) →
        update_food db fid ⟨none, none, some items⟩
          = .fail { db with foods := replaceFood db.foods fid f,
                            recipes := db.recipes.filter (fun r => r.food_id != fid) }
              Err.typeError) := by
  constructor
  · intro db nm sp items h1 h2 hbad
    have hins := insertLines_none db.groceries db.nextFoodId items hbad
    simp only [create_food, if_neg h1, h2, Bool.false_eq_true, if_false, hins]
  · intro db fid f items hf hbad
    have hins := insertLines_none db.groceries fid items hbad
    simp only [update_food, hf, hins]

theorem C10_witness :
    create_food dbC10 "Tart" 5 [⟨none, none, 1⟩]
      = .fail { dbC10 with foods := dbC10.foods ++ [⟨dbC10.nextFoodId, strip "Tart", 5, 0⟩],
                           nextFoodId := dbC10.nextFoodId + 1 } Err.typeError :=
  C10_type_error.1 dbC10 "Tart" 5 [⟨none, none, 1⟩] (by decide) (by decide)
    ⟨⟨none, none, 1⟩, by simp, rfl⟩

end Inventory
